import Mathlib

/-!
Shallow embedding of the Process_Manager sampling core
(src/gpu_monitor.py, src/monitor.py) and proofs of the spec's claims.

The GPU accessor (`GPUMonitor`) is modelled as a state machine whose
external NVML queries are supplied as explicit inputs: a query that would
raise `pynvml.NVMLError` is the `none` case of an `Option` argument.
Python's `dict` is modelled as an association list with Python's
insert-or-overwrite semantics.  Real-valued arithmetic (CPU percentages,
memory percentages, sleep times) is modelled over `ℚ`.
-/

/-- One entry of `nvmlDeviceGetComputeRunningProcesses`: a process pid and
its used GPU memory in bytes (gpu_monitor.py lines 58-61). -/
structure GpuProc where
  pid : Nat
  usedGpuMemory : Nat
deriving DecidableEq, Repr

/-- One device's answer to the per-device stat queries used by
`get_gpu_info` (gpu_monitor.py lines 83-94). -/
structure DeviceInfo where
  name : String
  uuid : String
  total_memory : Nat
  used_memory : Nat
  gpu_utilization : Nat
deriving DecidableEq, Repr

/-- One element of the list returned by `get_gpu_info`
(gpu_monitor.py lines 88-95). -/
structure GpuInfoEntry where
  name : String
  uuid : String
  total_memory : Nat
  used_memory : Nat
  memory_percent : ℚ
  gpu_utilization : Nat
deriving DecidableEq, Repr

/-- The mutable state of a `GPUMonitor` instance
(gpu_monitor.py lines 28-29). -/
structure GPUState where
  is_available : Bool
  pid_gpu_memory_map : List (Nat × Nat)
deriving DecidableEq, Repr

/-- Python `dict.get(k, d)` on the association-list model. -/
def dictGet (m : List (Nat × Nat)) (k d : Nat) : Nat :=
  match m with
  | [] => d
  | (k', v') :: rest => if k' = k then v' else dictGet rest k d

/-- Python `m[k] = v`: overwrite in place if the key exists, else append. -/
def dictInsert (m : List (Nat × Nat)) (k v : Nat) : List (Nat × Nat) :=
  match m with
  | [] => [(k, v)]
  | (k', v') :: rest =>
    if k' = k then (k, v) :: rest else (k', v') :: dictInsert rest k v

/-- Python `k in m` on the association-list model. -/
def dictHasKey (m : List (Nat × Nat)) (k : Nat) : Bool :=
  match m with
  | [] => false
  | (k', _) :: rest => k' = k || dictHasKey rest k

/-- `GPUMonitor.__init__` (gpu_monitor.py lines 23-40): the availability
flag is true iff the pynvml import succeeded and `nvmlInit` did not raise. -/
def initGPU (libAvailable initSucceeds : Bool) : GPUState :=
  { is_available := libAvailable && initSucceeds, pid_gpu_memory_map := [] }

/-- The body of the inner loop of `_map_pids_to_gpus`
(gpu_monitor.py line 61): aggregate one process entry into the map. -/
def addProc (m : List (Nat × Nat)) (p : GpuProc) : List (Nat × Nat) :=
  dictInsert m p.pid (dictGet m p.pid 0 + p.usedGpuMemory)

/-- The device loop of `_map_pids_to_gpus` (gpu_monitor.py lines 54-61),
run over the successful query results: each device contributes its list of
compute-running processes. -/
def buildPidMap (devices : List (List GpuProc)) : List (Nat × Nat) :=
  devices.foldl (fun m procs => procs.foldl addProc m) []

/-- `GPUMonitor._map_pids_to_gpus` (gpu_monitor.py lines 42-65).
`query = none` models an `NVMLError` raised at any point of the refresh:
the `except` clause resets the map to `{}`, discarding partial results,
and leaves `is_available` untouched.  When not available the method
returns before touching the map. -/
def mapPidsToGpus (st : GPUState) (query : Option (List (List GpuProc))) :
    GPUState :=
  if st.is_available then
    match query with
    | some devices => { st with pid_gpu_memory_map := buildPidMap devices }
    | none => { st with pid_gpu_memory_map := [] }
  else st

/-- The entry built for one device by `get_gpu_info`
(gpu_monitor.py lines 88-95), including the division-by-zero guard on
`memory_percent` (line 93). -/
def mkGpuInfoEntry (d : DeviceInfo) : GpuInfoEntry :=
  { name := d.name
    uuid := d.uuid
    total_memory := d.total_memory
    used_memory := d.used_memory
    memory_percent :=
      if d.total_memory > 0 then
        (d.used_memory : ℚ) / (d.total_memory : ℚ) * 100
      else 0
    gpu_utilization := d.gpu_utilization }

/-- `GPUMonitor.get_gpu_info` (gpu_monitor.py lines 68-101), returning the
successor state together with the returned list.  `query = none` models an
`NVMLError` during device enumeration: the handler sets
`is_available = False` and returns `[]` (lines 96-99). -/
def getGpuInfo (st : GPUState) (query : Option (List DeviceInfo)) :
    GPUState × List GpuInfoEntry :=
  if st.is_available then
    match query with
    | some devices => (st, devices.map mkGpuInfoEntry)
    | none => ({ st with is_available := false }, [])
  else (st, [])

/-- `GPUMonitor.get_process_gpu_memory` (gpu_monitor.py lines 103-113):
a pure lookup into the last-built map with default 0. -/
def getProcessGpuMemory (st : GPUState) (pid : Nat) : Nat :=
  dictGet st.pid_gpu_memory_map pid 0

/-- `GPUMonitor.shutdown` (gpu_monitor.py lines 115-124).  Returns
`(released, errorLogged)`: `nvmlShutdown` is invoked only when
`is_available` is true at call time; an `NVMLError` raised by it
(`releaseFails = true`) is caught and logged, never propagated — the
function is total and always returns normally. -/
def gpuShutdown (st : GPUState) (releaseFails : Bool) : Bool × Bool :=
  if st.is_available then
    if releaseFails then (true, true) else (true, false)
  else (false, false)

/-- One externally observable operation on a `GPUMonitor` instance, with
its query outcome supplied as data. -/
inductive GpuOp
  | mapRefresh (query : Option (List (List GpuProc)))
  | infoQuery (query : Option (List DeviceInfo))
  | memLookup (pid : Nat)
deriving DecidableEq, Repr

/-- The state transition of one operation (lookup leaves state unchanged). -/
def applyOp (st : GPUState) (op : GpuOp) : GPUState :=
  match op with
  | .mapRefresh q => mapPidsToGpus st q
  | .infoQuery q => (getGpuInfo st q).1
  | .memLookup _ => st

/-- Run a sequence of operations against a `GPUMonitor` instance. -/
def runOps (st : GPUState) (ops : List GpuOp) : GPUState :=
  ops.foldl applyOp st

/-- Total used GPU memory reported for `pid` across all devices of a
successful refresh: the value the spec says the lookup must return. -/
def sumGpuMem (devices : List (List GpuProc)) (pid : Nat) : Nat :=
  (devices.map fun procs =>
    ((procs.filter fun p => p.pid = pid).map fun p => p.usedGpuMemory).sum).sum

/-- One core's cumulative CPU time counters as returned by
`psutil.cpu_times(percpu=True)` (monitor.py line 61), restricted to the
fields the algorithm reads. -/
structure CpuTimes where
  user : ℚ
  system : ℚ
  idle : ℚ
deriving DecidableEq, Repr

/-- Clamp to [0, 100] as done by `max(0.0, min(100.0, percent))`
(monitor.py lines 86 and 98). -/
def clampPercent (x : ℚ) : ℚ := max 0 (min 100 x)

/-- The per-core delta total `delta_all` (monitor.py lines 75-78). -/
def deltaAll (c l : CpuTimes) : ℚ :=
  (c.user - l.user) + (c.system - l.system) + (c.idle - l.idle)

/-- One iteration of the per-core loop of `_calculate_cpu_percent`
(monitor.py lines 71-86): the clamped busy percentage of one core, with
the `delta_all == 0` guard. -/
def perCorePercent (c l : CpuTimes) : ℚ :=
  let du := c.user - l.user
  let ds := c.system - l.system
  let di := c.idle - l.idle
  let da := du + ds + di
  clampPercent (if da = 0 then 0 else (du + ds) / da * 100)

/-- `SystemMonitor._calculate_cpu_percent` (monitor.py lines 56-98) as a
pure function of the current and previous per-core samples.  The Python
loop runs over indices `0 ..< len(current_times)` pairing the two sample
lists positionally; `List.zip` reproduces this when the core count is
stable.  The running total accumulators become sums over the zipped
list.  Returns `(total_percent, per_cpu_percent)`. -/
def calculateCpuPercent (current last : List CpuTimes) : ℚ × List ℚ :=
  let pairs := current.zip last
  let per := pairs.map fun p => perCorePercent p.1 p.2
  let totalDeltaUser := (pairs.map fun p => p.1.user - p.2.user).sum
  let totalDeltaSystem := (pairs.map fun p => p.1.system - p.2.system).sum
  let totalDeltaAll := (pairs.map fun p => deltaAll p.1 p.2).sum
  let total :=
    if totalDeltaAll = 0 then 0
    else (totalDeltaUser + totalDeltaSystem) / totalDeltaAll * 100
  (clampPercent total, per)

/-- Modelled from the spec's words for the refinement claim about the
total CPU percentage: sum the user, system and idle deltas across all
cores and apply `(sum_user + sum_system) / sum_total * 100` to the
aggregated sums (clamped, with the zero-total guard). -/
def totalPercentAggregated (current last : List CpuTimes) : ℚ :=
  let pairs := current.zip last
  let su := (pairs.map fun p => p.1.user - p.2.user).sum
  let ss := (pairs.map fun p => p.1.system - p.2.system).sum
  let si := (pairs.map fun p => p.1.idle - p.2.idle).sum
  let st := su + ss + si
  clampPercent (if st = 0 then 0 else (su + ss) / st * 100)

/-- Arithmetic mean of a list of percentages (what the spec says the
total is NOT computed as). -/
def meanPercent (l : List ℚ) : ℚ := l.sum / l.length

/-- The sleep performed at the end of one tick of `SystemMonitor.run`
(monitor.py lines 42-45): `sleep_time = interval - elapsed`; sleep only
when `sleep_time > 0`, else fall through immediately to the next tick. -/
def tickSleep (interval elapsed : ℚ) : ℚ :=
  if interval - elapsed > 0 then interval - elapsed else 0

/-- One iteration of the `while self._is_running` loop of
`SystemMonitor.run` (monitor.py lines 31-45) under an adversarial stop
schedule.  The iteration reads the `_is_running` flag at two program
points: point 0, the loop condition (line 31), and point 2, the guard
before `data_updated.emit` (line 38); the collection (lines 35-37)
occupies the interval between them and contains no flag check.
`stopStep` is the point at which `stop()` (lines 50-54) lands: the flag
read at point `k` returns true iff `k < stopStep` (`stopStep = 0` means
stop landed before the tick; any `stopStep > 2` means it landed after the
emit guard or not at all).  `collected` records whether the collection
ran (and, being uninterruptible, ran to completion); `emitted` records
whether the snapshot was published. -/
def loopIter (stopStep : Nat) : Bool × Bool :=
  if 0 < stopStep then (true, decide (2 < stopStep)) else (false, false)

/-- Python truthiness-based `a and b` on numbers: the value is `a` when
`a` is falsy (zero), else `b`. -/
def pyAnd (a b : ℚ) : ℚ := if a = 0 then a else b

/-- Python truthiness-based `x or c` on numbers: the value is `x` when
`x` is truthy (nonzero), else `c`. -/
def pyOr (x c : ℚ) : ℚ := if x = 0 then c else x

/-- Division that signals the division-by-zero hazard instead of
totalising it: `none` models a raised `ZeroDivisionError`. -/
def checkedDiv (a b : ℚ) : Option ℚ :=
  if b = 0 then none else some (a / b)

/-- The per-process memory percent expression of
`SystemMonitor._collect_data` (monitor.py line 120):
`ram.total and (pinfo['memory_info'].rss / ram.total * 100) or 0`,
with Python's short-circuit `and`/`or` on numeric truthiness and the
division checked: the division is evaluated only when `ramTotal` is
truthy, so a `none` result would mean the expression can raise. -/
def memoryPercent (ramTotal rss : ℚ) : Option ℚ :=
  if ramTotal = 0 then some (pyOr (pyAnd ramTotal 0) 0)
  else (checkedDiv rss ramTotal).map fun q => pyOr (q * 100) 0

/-! ### Association-list dictionary lemmas -/

theorem dictGet_insert_self (m : List (Nat × Nat)) (k v d : Nat) :
    dictGet (dictInsert m k v) k d = v := by
  induction m with
  | nil => simp [dictInsert, dictGet]
  | cons hd tl ih =>
    obtain ⟨k', v'⟩ := hd
    by_cases h : k' = k
    · simp [dictInsert, h, dictGet]
    · simp [dictInsert, h, dictGet, ih]

theorem dictGet_insert_ne (m : List (Nat × Nat)) (k v k₂ d : Nat)
    (h : k ≠ k₂) : dictGet (dictInsert m k v) k₂ d = dictGet m k₂ d := by
  induction m with
  | nil => simp [dictInsert, dictGet, h]
  | cons hd tl ih =>
    obtain ⟨k', v'⟩ := hd
    by_cases hk : k' = k
    · subst hk
      simp [dictInsert, dictGet, h]
    · simp [dictInsert, hk, dictGet, ih]

theorem dictGet_not_hasKey (m : List (Nat × Nat)) (k d : Nat)
    (h : dictHasKey m k = false) : dictGet m k d = d := by
  induction m with
  | nil => rfl
  | cons hd tl ih =>
    obtain ⟨k', v'⟩ := hd
    simp [dictHasKey] at h
    simp [dictGet, h.1, ih h.2]

theorem dictGet_addProc (m : List (Nat × Nat)) (p : GpuProc) (pid : Nat) :
    dictGet (addProc m p) pid 0 =
      dictGet m pid 0 + (if p.pid = pid then p.usedGpuMemory else 0) := by
  unfold addProc
  by_cases h : p.pid = pid
  · subst h
    rw [dictGet_insert_self]
    simp
  · rw [dictGet_insert_ne _ _ _ _ _ h]
    simp [h]

theorem dictGet_foldl_addProc (procs : List GpuProc) (m : List (Nat × Nat))
    (pid : Nat) :
    dictGet (procs.foldl addProc m) pid 0 =
      dictGet m pid 0 +
        ((procs.filter fun p => p.pid = pid).map fun p => p.usedGpuMemory).sum := by
  induction procs generalizing m with
  | nil => simp
  | cons p ps ih =>
    simp only [List.foldl_cons, ih, dictGet_addProc, List.filter_cons]
    by_cases h : p.pid = pid
    · simp [h]
      omega
    · simp [h]

theorem dictGet_foldl_devices (devices : List (List GpuProc))
    (m : List (Nat × Nat)) (pid : Nat) :
    dictGet (devices.foldl (fun acc procs => procs.foldl addProc acc) m) pid 0 =
      dictGet m pid 0 + sumGpuMem devices pid := by
  induction devices generalizing m with
  | nil => simp [sumGpuMem]
  | cons d ds ih =>
    simp only [List.foldl_cons, ih, dictGet_foldl_addProc, sumGpuMem,
      List.map_cons, List.sum_cons]
    omega

theorem dictGet_buildPidMap (devices : List (List GpuProc)) (pid : Nat) :
    dictGet (buildPidMap devices) pid 0 = sumGpuMem devices pid := by
  unfold buildPidMap
  rw [dictGet_foldl_devices]
  simp [dictGet]

/-! ### GPU accessor state lemmas -/

theorem applyOp_of_not_available (st : GPUState) (op : GpuOp)
    (h : st.is_available = false) : applyOp st op = st := by
  cases op <;> simp [applyOp, mapPidsToGpus, getGpuInfo, h]

theorem runOps_of_not_available (st : GPUState) (ops : List GpuOp)
    (h : st.is_available = false) : runOps st ops = st := by
  induction ops with
  | nil => rfl
  | cons op rest ih =>
    unfold runOps
    rw [List.foldl_cons, applyOp_of_not_available st op h]
    exact ih

/-! ### Claims -/

/-- C3: the two GPU failure policies differ as specified.  A query failure
during device listing (`get_gpu_info`) permanently disables the accessor:
that call returns the empty list and every subsequent listing call does
too.  A query failure during the PID-map refresh (`_map_pids_to_gpus`)
only resets the map to empty for that tick, leaves the accessor enabled,
and the next successful refresh rebuilds the map as usual. -/
theorem claim_C3 (st : GPUState) (devs : List (List GpuProc))
    (hav : st.is_available = true) :
    ((getGpuInfo st none).1.is_available = false ∧
      (getGpuInfo st none).2 = [] ∧
      (∀ q₂, (getGpuInfo (getGpuInfo st none).1 q₂).2 = [])) ∧
    ((mapPidsToGpus st none).pid_gpu_memory_map = [] ∧
      (mapPidsToGpus st none).is_available = true ∧
      (mapPidsToGpus (mapPidsToGpus st none) (some devs)).pid_gpu_memory_map =
        buildPidMap devs) := by
  refine ⟨⟨?_, ?_, ?_⟩, ?_, ?_, ?_⟩ <;>
    simp [getGpuInfo, mapPidsToGpus, hav]

/-- Concrete instance of C3: start from an available accessor holding a
prior map, fail a device listing, fail a map refresh, and observe both
policies. -/
theorem claim_C3_witness :
    (GPUState.mk true [(3, 5)]).is_available = true ∧
    (getGpuInfo (GPUState.mk true [(3, 5)]) none).1.is_available = false ∧
    (getGpuInfo (getGpuInfo (GPUState.mk true [(3, 5)]) none).1
        (some [DeviceInfo.mk "gpu0" "uuid0" 8 4 10])).2 = [] ∧
    (mapPidsToGpus (GPUState.mk true [(3, 5)]) none).pid_gpu_memory_map = [] ∧
    (mapPidsToGpus (GPUState.mk true [(3, 5)]) none).is_available = true := by
  have h := claim_C3 (GPUState.mk true [(3, 5)]) [[GpuProc.mk 1 2]] rfl
  exact ⟨rfl, h.1.1, h.1.2.2 (some [DeviceInfo.mk "gpu0" "uuid0" 8 4 10]),
    h.2.1, h.2.2.1⟩

/-- C4: `get_process_gpu_memory` returns 0 for a pid absent from the
last-built map, and after a successful refresh the lookup returns the sum
of the used GPU memory that all devices report for that pid. -/
theorem claim_C4 (st : GPUState) (devices : List (List GpuProc)) (pid : Nat)
    (hav : st.is_available = true) :
    (dictHasKey st.pid_gpu_memory_map pid = false →
      getProcessGpuMemory st pid = 0) ∧
    getProcessGpuMemory (mapPidsToGpus st (some devices)) pid =
      sumGpuMem devices pid := by
  constructor
  · intro h
    exact dictGet_not_hasKey _ _ _ h
  · simp [mapPidsToGpus, hav, getProcessGpuMemory, dictGet_buildPidMap]

/-- Concrete instance of C4: pid 7 reports 100 bytes on one device and 50
on another; the lookup returns 150; a pid absent from the map reads 0. -/
theorem claim_C4_witness :
    (GPUState.mk true []).is_available = true ∧
    (dictHasKey (GPUState.mk true []).pid_gpu_memory_map 7 = false →
      getProcessGpuMemory (GPUState.mk true []) 7 = 0) ∧
    getProcessGpuMemory
        (mapPidsToGpus (GPUState.mk true [])
          (some [[GpuProc.mk 7 100], [GpuProc.mk 7 50]])) 7 =
      sumGpuMem [[GpuProc.mk 7 100], [GpuProc.mk 7 50]] 7 ∧
    getProcessGpuMemory
        (mapPidsToGpus (GPUState.mk true [])
          (some [[GpuProc.mk 7 100], [GpuProc.mk 7 50]])) 7 = 150 := by
  have h := claim_C4 (GPUState.mk true [])
    [[GpuProc.mk 7 100], [GpuProc.mk 7 50]] 7 rfl
  exact ⟨rfl, h.1, h.2, by decide⟩

/-- C7: when initialization fails (library absent or init error) the
availability flag is false and the map empty; every later operation
leaves the state unchanged (so initialization is never re-attempted),
device listing returns the empty list, and the per-pid lookup returns 0
for every pid. -/
theorem claim_C7 (libAvailable initSucceeds : Bool) (ops : List GpuOp)
    (hfail : (libAvailable && initSucceeds) = false) :
    runOps (initGPU libAvailable initSucceeds) ops =
      initGPU libAvailable initSucceeds ∧
    (∀ q, (getGpuInfo (runOps (initGPU libAvailable initSucceeds) ops) q).2
      = []) ∧
    (∀ pid,
      getProcessGpuMemory (runOps (initGPU libAvailable initSucceeds) ops) pid
        = 0) ∧
    (runOps (initGPU libAvailable initSucceeds) ops).is_available = false := by
  have hna : (initGPU libAvailable initSucceeds).is_available = false := by
    simp [initGPU, hfail]
  have hrun := runOps_of_not_available _ ops hna
  refine ⟨hrun, ?_, ?_, ?_⟩
  · intro q
    rw [hrun]
    simp [getGpuInfo, hna]
  · intro pid
    rw [hrun]
    simp [getProcessGpuMemory, initGPU, dictGet]
  · rw [hrun]
    exact hna

/-- Concrete instance of C7: the library imports but `nvmlInit` raises;
afterwards a refresh and a listing are attempted, yet listing stays empty
and every lookup stays 0. -/
theorem claim_C7_witness :
    ((true && false) = false) ∧
    runOps (initGPU true false)
        [GpuOp.mapRefresh (some [[GpuProc.mk 1 5]]), GpuOp.infoQuery none] =
      initGPU true false ∧
    (getGpuInfo
        (runOps (initGPU true false)
          [GpuOp.mapRefresh (some [[GpuProc.mk 1 5]]), GpuOp.infoQuery none])
        (some [DeviceInfo.mk "gpu0" "uuid0" 8 4 10])).2 = [] ∧
    getProcessGpuMemory
        (runOps (initGPU true false)
          [GpuOp.mapRefresh (some [[GpuProc.mk 1 5]]), GpuOp.infoQuery none])
        42 = 0 := by
  have h := claim_C7 true false
    [GpuOp.mapRefresh (some [[GpuProc.mk 1 5]]), GpuOp.infoQuery none] rfl
  exact ⟨rfl, h.1, h.2.1 (some [DeviceInfo.mk "gpu0" "uuid0" 8 4 10]),
    h.2.2.1 42⟩

/-- C2 as stated is false: the per-pid memory lookup does not become a
no-op returning empty results once the flag is cleared.  Build the map
with pid 7 using 100 bytes, clear the flag via a device-enumeration
failure, and the lookup still returns the stale 100, not 0. -/
theorem claim_C2_counterexample :
    (getGpuInfo (mapPidsToGpus (initGPU true true) (some [[GpuProc.mk 7 100]]))
        none).1.is_available = false ∧
    getProcessGpuMemory
        (getGpuInfo
          (mapPidsToGpus (initGPU true true) (some [[GpuProc.mk 7 100]]))
          none).1 7 = 100 ∧
    ¬ getProcessGpuMemory
        (getGpuInfo
          (mapPidsToGpus (initGPU true true) (some [[GpuProc.mk 7 100]]))
          none).1 7 = 0 := by
  refine ⟨by decide, by decide, by decide⟩

/-- C2 amended: the availability flag never flips back to true — once it
is false the whole accessor state is frozen under every operation
sequence, device listing returns the empty list, and map refresh is a
no-op; the per-pid lookup, however, keeps reading the last-built map,
which may retain stale nonzero values from before the failure. -/
theorem claim_C2_amended (st : GPUState) (ops : List GpuOp)
    (q : Option (List DeviceInfo)) (q₂ : Option (List (List GpuProc)))
    (h : st.is_available = false) :
    runOps st ops = st ∧
    (runOps st ops).is_available = false ∧
    (getGpuInfo st q).2 = [] ∧
    mapPidsToGpus st q₂ = st ∧
    (∀ pid, getProcessGpuMemory st pid = dictGet st.pid_gpu_memory_map pid 0)
    := by
  have hrun := runOps_of_not_available st ops h
  refine ⟨hrun, by rw [hrun]; exact h, ?_, ?_, fun pid => rfl⟩
  · simp [getGpuInfo, h]
  · simp [mapPidsToGpus, h]

/-- Concrete instance of the amended C2: a disabled accessor holding a
stale entry for pid 7 stays frozen under a listing and a refresh, while
the lookup still reads the stale map. -/
theorem claim_C2_witness :
    (GPUState.mk false [(7, 100)]).is_available = false ∧
    runOps (GPUState.mk false [(7, 100)])
        [GpuOp.infoQuery none, GpuOp.mapRefresh (some [[GpuProc.mk 1 2]])] =
      GPUState.mk false [(7, 100)] ∧
    (getGpuInfo (GPUState.mk false [(7, 100)]) none).2 = [] ∧
    mapPidsToGpus (GPUState.mk false [(7, 100)]) (some [[GpuProc.mk 1 2]]) =
      GPUState.mk false [(7, 100)] ∧
    getProcessGpuMemory (GPUState.mk false [(7, 100)]) 7 =
      dictGet [(7, 100)] 7 0 := by
  have h := claim_C2_amended (GPUState.mk false [(7, 100)])
    [GpuOp.infoQuery none, GpuOp.mapRefresh (some [[GpuProc.mk 1 2]])]
    none (some [[GpuProc.mk 1 2]]) rfl
  exact ⟨rfl, h.1, h.2.2.1, h.2.2.2.1, h.2.2.2.2 7⟩

/-- C8 as stated is false: in a run where initialization succeeded and a
later device-enumeration failure cleared the availability flag, shutdown
does NOT release the capability — `nvmlShutdown` is guarded by
`is_available`, not by whether initialization had succeeded. -/
theorem claim_C8_counterexample :
    (initGPU true true).is_available = true ∧
    (getGpuInfo (initGPU true true) none).1.is_available = false ∧
    (gpuShutdown (getGpuInfo (initGPU true true) none).1 false).1 = false := by
  refine ⟨by decide, by decide, by decide⟩

/-- C8 amended: `shutdown()` invokes the underlying release exactly when
the availability flag is still true at call time (so a run where a
device-enumeration failure cleared the flag skips the release even though
initialization succeeded), and a failure raised by the release itself is
caught and logged — the call always returns normally. -/
theorem claim_C8_amended (st : GPUState) (releaseFails : Bool) :
    (gpuShutdown st releaseFails).1 = st.is_available ∧
    (gpuShutdown st releaseFails).2 = (st.is_available && releaseFails) := by
  cases h : st.is_available <;> cases releaseFails <;> simp [gpuShutdown, h]

/-! ### CPU percentage lemmas -/

theorem clampPercent_nonneg (x : ℚ) : 0 ≤ clampPercent x :=
  le_max_left 0 (min 100 x)

theorem clampPercent_le_100 (x : ℚ) : clampPercent x ≤ 100 :=
  max_le (by norm_num) (min_le_left 100 x)

theorem clampPercent_zero : clampPercent 0 = 0 := by
  simp [clampPercent]

theorem sum_deltaAll_split (pairs : List (CpuTimes × CpuTimes)) :
    (pairs.map fun p => deltaAll p.1 p.2).sum =
      (pairs.map fun p => p.1.user - p.2.user).sum +
      (pairs.map fun p => p.1.system - p.2.system).sum +
      (pairs.map fun p => p.1.idle - p.2.idle).sum := by
  induction pairs with
  | nil => simp
  | cons p t ih =>
    simp only [List.map_cons, List.sum_cons, ih]
    simp only [deltaAll]
    ring

/-- C5: every per-core percentage and the total percentage produced by
`_calculate_cpu_percent` lie in [0, 100] for all input counter values
(including counters that appear to decrease); a core whose `delta_all` is
0 yields exactly 0, and so does the total when its aggregate delta is 0;
the whole computation is a total function (no NaN or division error can
arise: the only divisions are guarded by the zero tests). -/
theorem claim_C5 (current last : List CpuTimes) :
    (∀ p ∈ (calculateCpuPercent current last).2, 0 ≤ p ∧ p ≤ 100) ∧
    (0 ≤ (calculateCpuPercent current last).1 ∧
      (calculateCpuPercent current last).1 ≤ 100) ∧
    (∀ c l, deltaAll c l = 0 → perCorePercent c l = 0) ∧
    ((calculateCpuPercent current last).2 =
      (current.zip last).map fun p => perCorePercent p.1 p.2) ∧
    (((current.zip last).map fun p => deltaAll p.1 p.2).sum = 0 →
      (calculateCpuPercent current last).1 = 0) := by
  refine ⟨?_, ⟨?_, ?_⟩, ?_, rfl, ?_⟩
  · intro p hp
    simp only [calculateCpuPercent, List.mem_map] at hp
    obtain ⟨a, _, rfl⟩ := hp
    exact ⟨clampPercent_nonneg _, clampPercent_le_100 _⟩
  · exact clampPercent_nonneg _
  · exact clampPercent_le_100 _
  · intro c l hda
    have h0 : (c.user - l.user) + (c.system - l.system) + (c.idle - l.idle)
        = 0 := hda
    simp [perCorePercent, h0, clampPercent_zero]
  · intro hz
    simp only [calculateCpuPercent]
    rw [if_pos hz]
    exact clampPercent_zero

/-- Concrete instance of C5: a sample pair with a zero-delta core and a
decreasing counter still yields in-range values and zeros where required. -/
theorem claim_C5_witness :
    deltaAll (CpuTimes.mk 3 4 5) (CpuTimes.mk 3 4 5) = 0 ∧
    perCorePercent (CpuTimes.mk 3 4 5) (CpuTimes.mk 3 4 5) = 0 ∧
    (0 ≤ (calculateCpuPercent [CpuTimes.mk 0 0 0] [CpuTimes.mk 9 9 9]).1 ∧
      (calculateCpuPercent [CpuTimes.mk 0 0 0] [CpuTimes.mk 9 9 9]).1 ≤ 100)
    := by
  have h1 := (claim_C5 [] []).2.2.1 (CpuTimes.mk 3 4 5) (CpuTimes.mk 3 4 5)
  have h2 := (claim_C5 [CpuTimes.mk 0 0 0] [CpuTimes.mk 9 9 9]).2.1
  have hda : deltaAll (CpuTimes.mk 3 4 5) (CpuTimes.mk 3 4 5) = 0 := by
    norm_num [deltaAll]
  exact ⟨hda, h1 hda, h2⟩

/-- The concrete sample pair exhibiting that the aggregated total is not
the mean of the per-core percentages: one fully busy core with a small
delta total, one fully idle core with a larger delta total. -/
def cpuExampleCurrent : List CpuTimes := [CpuTimes.mk 1 0 0, CpuTimes.mk 0 0 3]

/-- The baseline sample for the same concrete pair. -/
def cpuExampleLast : List CpuTimes := [CpuTimes.mk 0 0 0, CpuTimes.mk 0 0 0]

/-- C6: the total CPU percentage is computed by summing the user, system
and idle deltas over all cores and applying the busy/total formula to the
aggregated sums — and this is not the mean of the per-core percentages:
on the concrete pair above the cores have unequal delta totals (1 versus
3), the aggregate gives 25, while the per-core mean is 50. -/
theorem claim_C6 :
    (∀ current last : List CpuTimes,
      (calculateCpuPercent current last).1 =
        totalPercentAggregated current last) ∧
    deltaAll (CpuTimes.mk 1 0 0) (CpuTimes.mk 0 0 0) ≠
      deltaAll (CpuTimes.mk 0 0 3) (CpuTimes.mk 0 0 0) ∧
    (calculateCpuPercent cpuExampleCurrent cpuExampleLast).1 = 25 ∧
    meanPercent (calculateCpuPercent cpuExampleCurrent cpuExampleLast).2 = 50
    := by
  refine ⟨?_, by norm_num [deltaAll], ?_, ?_⟩
  · intro current last
    simp only [calculateCpuPercent, totalPercentAggregated,
      sum_deltaAll_split]
  · norm_num [calculateCpuPercent, cpuExampleCurrent, cpuExampleLast,
      perCorePercent, clampPercent, deltaAll, sum_deltaAll_split]
  · norm_num [calculateCpuPercent, cpuExampleCurrent, cpuExampleLast,
      perCorePercent, clampPercent, deltaAll, meanPercent]

/-- C1 as stated is false: when `stop()` lands during the collection
(stop point 1, after the loop-condition read and before the emit guard),
the collection completes but the snapshot is NOT published — the
`if self._is_running` guard before `data_updated.emit` sees the cleared
flag and skips the emit. -/
theorem claim_C1_counterexample :
    (loopIter 1).1 = true ∧ (loopIter 1).2 = false := by
  refine ⟨by decide, by decide⟩

/-- C1 amended: a collection that has started always runs to completion
(stop is cooperative, not preemptive), but its snapshot is published only
when the stop flag has not yet been set at the post-collection emit
guard; if `stop()` lands during the collection, the completed tick exits
the loop without publishing its snapshot. -/
theorem claim_C1_amended (stopStep : Nat) (h : 0 < stopStep) :
    (loopIter stopStep).1 = true ∧
    ((loopIter stopStep).2 = true ↔ 2 < stopStep) := by
  simp [loopIter, h]

/-- Concrete instances of the amended C1: stop after the emit guard keeps
the publication; stop during collection loses it while the collection
still completes. -/
theorem claim_C1_witness :
    (0 < 3 ∧ ((loopIter 3).1 = true ∧ ((loopIter 3).2 = true ↔ 2 < 3))) ∧
    (0 < 1 ∧ ((loopIter 1).1 = true ∧ ((loopIter 1).2 = true ↔ 2 < 1))) :=
  ⟨⟨by decide, claim_C1_amended 3 (by decide)⟩,
   ⟨by decide, claim_C1_amended 1 (by decide)⟩⟩

/-- C9: at the end of a tick the scheduler sleeps exactly the configured
interval minus the elapsed collection time when that difference is
positive, and sleeps nothing (proceeding immediately) when the collection
took at least the interval — with no error in either case, the sleep
computation being total. -/
theorem claim_C9 (interval elapsed : ℚ) :
    (elapsed < interval → tickSleep interval elapsed = interval - elapsed) ∧
    (interval ≤ elapsed → tickSleep interval elapsed = 0) := by
  constructor
  · intro h
    simp [tickSleep, sub_pos.mpr h]
  · intro h
    have hnp : ¬ interval - elapsed > 0 := not_lt.mpr (sub_nonpos.mpr h)
    simp [tickSleep, hnp]

/-- Concrete instance of C9, the scenario of the spec: interval 1.0s and
a 1.3s collection give no sleep; a 0.5s collection sleeps 0.5s. -/
theorem claim_C9_witness :
    tickSleep 1 (13 / 10) = 0 ∧ tickSleep 1 (1 / 2) = 1 - 1 / 2 :=
  ⟨(claim_C9 1 (13 / 10)).2 (by norm_num),
   (claim_C9 1 (1 / 2)).1 (by norm_num)⟩

/-- C10: the per-process memory percent expression always evaluates
without reaching a division by zero, yields 0 whenever total RAM is 0,
and yields 0 whenever the resident memory is 0 with positive total RAM. -/
theorem claim_C10 (ramTotal rss : ℚ) :
    (memoryPercent ramTotal rss).isSome = true ∧
    (ramTotal = 0 → memoryPercent ramTotal rss = some 0) ∧
    (rss = 0 → 0 < ramTotal → memoryPercent ramTotal rss = some 0) := by
  refine ⟨?_, ?_, ?_⟩
  · by_cases h : ramTotal = 0 <;> simp [memoryPercent, checkedDiv, h]
  · intro h
    simp [memoryPercent, h, pyAnd, pyOr]
  · intro h hpos
    have hne : ramTotal ≠ 0 := ne_of_gt hpos
    simp [memoryPercent, hne, checkedDiv, h, pyOr]

/-- Concrete instances of C10: zero total RAM, zero resident memory with
positive RAM, and a routine division all evaluate and give the specified
values. -/
theorem claim_C10_witness :
    memoryPercent 0 5 = some 0 ∧
    memoryPercent 8 0 = some 0 ∧
    (memoryPercent 8 3).isSome = true :=
  ⟨(claim_C10 0 5).2.1 rfl,
   (claim_C10 8 0).2.2 rfl (by norm_num),
   (claim_C10 8 3).1⟩
